import Mathlib

/-!
Shallow embedding of the Unity-QuestVuforia native bridge
(`Assets/Plugins/Android/QuforiaPlugin.androidlib/src/main/cpp`): the
`VuforiaEngineWrapper` singleton (`vuforia_engine_wrapper.{h,cpp}`), the
`ImageTargetTracker` / `ModelTargetTracker` classes
(`image_target_tracker.cpp`, `model_target_tracker.cpp`) and the JNI entry
points (`quforia_jni.cpp`).

Modelling conventions.
* Calls into the closed-source Vuforia SDK (`vuEngineCreate`,
  `vuEngineAcquireLatestState`, ...) are modelled by explicit oracle
  records carrying each vendor call's success flag and returned data.
* C pointers that the repository only null-checks and passes along
  (`VuEngine*`, `VuObserver*`, `VuState*`) are modelled as `Option Nat`
  (`none` = `nullptr`).
* 32-bit float payloads are only ever copied field-for-field by this code
  (no arithmetic is performed on them), so they are modelled by an opaque
  scalar carrier `F32 := Int` with decidable equality.
* Mutex usage is modelled by per-method event traces: each method's
  interactions with the shared fields (`lock_guard` acquisition, reads of
  `engine_` / `externalCamera_` / `initialized_`) are listed in source
  order.
-/

/-- Opaque carrier for 32-bit float payloads: the native code only copies
them between structs and arrays. -/
abbrev F32 := Int

/-- A non-null `VuEngine*`. -/
abbrev VuEnginePtr := Nat

/-- A non-null `VuState*`. -/
abbrev VuStatePtr := Nat

/-- A non-null `VuObserver*`. -/
abbrev VuObserverPtr := Nat

/-- `VuObservationType` constants used by the trackers
(`VU_OBSERVATION_IMAGE_TARGET_TYPE`, `VU_OBSERVATION_MODEL_TARGET_TYPE`,
any other type). -/
inductive VuObservationType where
  | imageTarget
  | modelTarget
  | other
deriving DecidableEq

/-- `VuObservationPoseStatus` constants
(`VU_OBSERVATION_POSE_STATUS_{NO_POSE,LIMITED,TRACKED,EXTENDED_TRACKED}`). -/
inductive VuPoseStatus where
  | noPose
  | limited
  | tracked
  | extendedTracked
deriving DecidableEq

/-- `VuPoseInfo`: pose status plus the 4x4 pose matrix `pose.data`. -/
structure VuPoseInfo where
  poseStatus : VuPoseStatus
  pose : Fin 16 → F32
deriving DecidableEq

/-- One element of the vendor observation list, together with the outcome
of each vendor query the tracker loop performs on it:
`vuObservationGetType`, `vuObservationGetPoseInfo` (`none` = failure),
`vu*TargetObservationGetTargetInfo` (`none` = failure, `some name?` with
the possibly-null `name` field), `vu*TargetObservationGetStatusInfo`. -/
structure VuObservation where
  obsType : VuObservationType
  poseInfo : Option VuPoseInfo
  targetInfo : Option (Option String)
  statusInfo : Option Int
deriving DecidableEq

/-- `VU_CAMERA_DISTORTION_MODE_LINEAR` (opaque enum value). -/
def VU_CAMERA_DISTORTION_MODE_LINEAR : Int := 1

/-- `VuCameraIntrinsics`: `size.data`, `focalLength.data`,
`principalPoint.data`, `distortionMode`, `distortionParameters.data`. -/
structure VuCameraIntrinsics where
  size : Fin 2 → F32
  focalLength : Fin 2 → F32
  principalPoint : Fin 2 → F32
  distortionMode : Int
  distortionParameters : Fin 8 → F32
deriving DecidableEq

/-- `VuforiaDriver::CameraIntrinsics`: `size[2]`, `focalLength[2]`,
`principalPoint[2]`, `distortionCoefficients[8]`. -/
structure CameraIntrinsics where
  size : Fin 2 → F32
  focalLength : Fin 2 → F32
  principalPoint : Fin 2 → F32
  distortionCoefficients : Fin 8 → F32
deriving DecidableEq

/-- `VuforiaDriver::PixelFormat` (the wrapper only ever uses `RGB888`). -/
inductive PixelFormat where
  | RGB888
  | unknown
deriving DecidableEq

/-- `VuforiaDriver::CameraFrame` as filled in by
`ExternalCameraImpl::deliverFrame`; `buffer` is the image byte pointer,
modelled as the byte contents. -/
structure CameraFrame where
  timestamp : Int
  exposureTime : Int
  buffer : Nat → Nat
  bufferSize : Int
  index : Nat
  width : Int
  height : Int
  stride : Int
  format : PixelFormat
  intrinsics : CameraIntrinsics

/-- `ExternalCameraImpl` instance state: `CameraCallback* callback_`
(modelled as an opaque callback id) and `uint32_t frameIndex_`. -/
structure ExternalCameraImpl where
  callback_ : Option Nat
  frameIndex_ : Nat
deriving DecidableEq

/-- `new ExternalCameraImpl()`: `callback_ = nullptr`, `frameIndex_ = 0`. -/
def ExternalCameraImpl.fresh : ExternalCameraImpl :=
  { callback_ := none, frameIndex_ := 0 }

/-- `ExternalCameraImpl::deliverFrame` (vuforia_engine_wrapper.cpp:64-81):
returns the updated camera object and the `CameraFrame` handed to
`callback_->onNewCameraFrame` (`none` when `callback_` is null and the
method returns without delivering). `frameIndex_++` is a `uint32_t`
post-increment, hence the `% 2 ^ 32`. -/
def ExternalCameraImpl.deliverFrame (c : ExternalCameraImpl) (data : Nat → Nat)
    (width height : Int) (format : PixelFormat) (intrinsics : CameraIntrinsics)
    (timestamp : Int) : ExternalCameraImpl × Option CameraFrame :=
  match c.callback_ with
  | none => (c, none)
  | some _ =>
    let frame : CameraFrame :=
      { timestamp := timestamp
        exposureTime := 0
        buffer := data
        bufferSize := width * height * 3
        index := c.frameIndex_
        width := width
        height := height
        stride := width * 3
        format := format
        intrinsics := intrinsics }
    ({ c with frameIndex_ := (c.frameIndex_ + 1) % 2 ^ 32 }, some frame)

/-- The shared fields of the `VuforiaEngineWrapper` singleton
(vuforia_engine_wrapper.h:29-31): `VuEngine* engine_ = nullptr`,
`VuforiaDriver::ExternalCamera* externalCamera_ = nullptr`,
`bool initialized_ = false`. -/
structure WrapperState where
  engine_ : Option VuEnginePtr
  externalCamera_ : Option ExternalCameraImpl
  initialized_ : Bool
deriving DecidableEq

/-- The singleton's state at construction. -/
def WrapperState.initial : WrapperState :=
  { engine_ := none, externalCamera_ := none, initialized_ := false }

/-- Outcomes of the vendor calls made by `VuforiaEngineWrapper::initialize`:
`vuEngineConfigSetCreate`, `vuEngineCreate` (with the engine pointer it
writes on success) and `vuEngineStart`. -/
structure VuInitOracle where
  configSetCreateOk : Bool
  engineCreateOk : Bool
  newEngine : VuEnginePtr
  engineStartOk : Bool
deriving DecidableEq

namespace VuforiaEngineWrapper

/-- `VuforiaEngineWrapper::initialize` (vuforia_engine_wrapper.cpp:97-152).
The license key, JavaVM and activity arguments only populate the local
vendor config set and never reach the wrapper's own state, so they are not
modelled. Returns the C++ return value and the resulting shared state. -/
def initialize_ (o : VuInitOracle) (s : WrapperState) : Bool × WrapperState :=
  if s.initialized_ then (false, s)
  else if !o.configSetCreateOk then (false, s)
  else
    -- externalCamera_ = new ExternalCameraImpl();
    let s1 : WrapperState := { s with externalCamera_ := some ExternalCameraImpl.fresh }
    if !o.engineCreateOk then
      -- delete externalCamera_; externalCamera_ = nullptr;
      (false, { s1 with externalCamera_ := none })
    else
      let s2 : WrapperState := { s1 with engine_ := some o.newEngine }
      if !o.engineStartOk then
        -- vuEngineDestroy(engine_); engine_ = nullptr; delete externalCamera_; ...
        (false, { s2 with engine_ := none, externalCamera_ := none })
      else
        (true, { s2 with initialized_ := true })

/-- `VuforiaEngineWrapper::shutdown` (vuforia_engine_wrapper.cpp:154-172). -/
def shutdown (s : WrapperState) : WrapperState :=
  if !s.initialized_ then s
  else
    let s1 : WrapperState := if s.engine_.isSome then { s with engine_ := none } else s
    let s2 : WrapperState :=
      if s1.externalCamera_.isSome then { s1 with externalCamera_ := none } else s1
    { s2 with initialized_ := false }

/-- `VuforiaEngineWrapper::processFrame` (vuforia_engine_wrapper.cpp:174-202).
Returns the C++ return value, the resulting shared state, and the
`CameraFrame` delivered to the driver callback (`none` when nothing was
delivered). -/
def processFrame (imageData : Nat → Nat) (width height : Int) (_format : Int)
    (intrinsics : VuCameraIntrinsics) (timestamp : Int) (s : WrapperState) :
    Bool × WrapperState × Option CameraFrame :=
  if !s.initialized_ then (false, s, none)
  else
    match s.externalCamera_ with
    | none => (false, s, none)
    | some cam =>
      let driverIntrinsics : CameraIntrinsics :=
        { size := ![intrinsics.size 0, intrinsics.size 1]
          focalLength := ![intrinsics.focalLength 0, intrinsics.focalLength 1]
          principalPoint := ![intrinsics.principalPoint 0, intrinsics.principalPoint 1]
          -- for (int i = 0; i < 8; i++) distortionCoefficients[i] = distortionParameters[i]
          distortionCoefficients := fun i => intrinsics.distortionParameters i }
      let pixelFormat := PixelFormat.RGB888
      let r := cam.deliverFrame imageData width height pixelFormat driverIntrinsics timestamp
      (true, { s with externalCamera_ := some r.1 }, r.2)

/-- `VuforiaEngineWrapper::getEngine` (vuforia_engine_wrapper.h:19). -/
def getEngine (s : WrapperState) : Option VuEnginePtr := s.engine_

/-- `VuforiaEngineWrapper::isInitialized` (vuforia_engine_wrapper.h:20). -/
def isInitialized (s : WrapperState) : Bool := s.initialized_

/-- Outcome of `vuEngineAcquireLatestState` and the state pointer it
writes on success. -/
structure VuAcquireOracle where
  acquireOk : Bool
  latestState : VuStatePtr
deriving DecidableEq

/-- `VuforiaEngineWrapper::acquireLatestState`
(vuforia_engine_wrapper.cpp:204-212). -/
def acquireLatestState (o : VuAcquireOracle) (s : WrapperState) : Option VuStatePtr :=
  if !s.initialized_ then none
  else if s.engine_.isNone then none
  else if o.acquireOk then some o.latestState else none

end VuforiaEngineWrapper

/-- One interaction of a `VuforiaEngineWrapper` method with the shared
state: acquiring `mutex_` via `std::lock_guard`, or reading one of the
shared fields. -/
inductive WrapperEvent where
  | lockMutex
  | readInitialized
  | readEngine
  | readCamera
deriving DecidableEq

namespace VuforiaEngineWrapper

/-- Shared-state interactions of `initialize`, in source order: the
`lock_guard` on entry, then the `if (initialized_)` read (everything after
that writes the fields rather than reading them). -/
def initializeEvents : List WrapperEvent :=
  [.lockMutex, .readInitialized]

/-- Shared-state interactions of `shutdown`, in source order. -/
def shutdownEvents (s : WrapperState) : List WrapperEvent :=
  .lockMutex :: .readInitialized ::
    (if s.initialized_ then [.readEngine, .readCamera] else [])

/-- Shared-state interactions of `processFrame`, in source order
(`!initialized_ || !externalCamera_` short-circuits, and the success path
reads `externalCamera_` again for the `deliverFrame` call). -/
def processFrameEvents (s : WrapperState) : List WrapperEvent :=
  .lockMutex :: .readInitialized ::
    (if s.initialized_ then [.readCamera] else [])

/-- Shared-state interactions of `getEngine`: the body is
`{ return engine_; }` with no `lock_guard`. -/
def getEngineEvents : List WrapperEvent := [.readEngine]

/-- Shared-state interactions of `isInitialized`: the body is
`{ return initialized_; }` with no `lock_guard`. -/
def isInitializedEvents : List WrapperEvent := [.readInitialized]

/-- Shared-state interactions of `acquireLatestState`: the body starts at
`if (!initialized_ || !engine_)` with no `lock_guard`
(`!initialized_ || !engine_` short-circuits). -/
def acquireLatestStateEvents (s : WrapperState) : List WrapperEvent :=
  .readInitialized :: (if s.initialized_ then [.readEngine] else [])

end VuforiaEngineWrapper

/-- Whether a trace event is a read of a shared field. -/
def WrapperEvent.isRead : WrapperEvent → Bool
  | .lockMutex => false
  | _ => true

/-- Whether a method's shared-state trace acquires `mutex_` before any
read of the shared fields. -/
def locksBeforeRead : List WrapperEvent → Bool
  | [] => true
  | .lockMutex :: _ => true
  | _ :: _ => false

/-- States of the wrapper reachable through its lifecycle: whenever
`initialized_` is false, both pointers are null. -/
def WrapperInv (s : WrapperState) : Prop :=
  s.initialized_ = false → s.engine_ = none ∧ s.externalCamera_ = none

instance (s : WrapperState) : Decidable (WrapperInv s) :=
  inferInstanceAs (Decidable (s.initialized_ = false → s.engine_ = none ∧ s.externalCamera_ = none))

/-- One tracking result struct (`ImageTargetResult` /
`ModelTargetResult`, both `{ char name[256]; float poseMatrix[16]; int
status; }`). `name = none` models the `char` buffer being left unwritten
(the stack array is not zero-initialized and the copy is skipped when the
vendor target-info call fails or returns a null name). -/
structure TargetResult where
  name : Option String
  poseMatrix : Fin 16 → F32
  status : Int
deriving DecidableEq

/-- The fields of `ImageTargetTracker` / `ModelTargetTracker`
(image_target_tracker.h:27-30, model_target_tracker.h:27-30):
`VuEngine* engine_`, `VuObserverList* observers_` (modelled as the list's
contents, `none` when `vuObserverListCreate` failed in the constructor)
and `std::string databasePath_`. The two tracker classes are
line-for-line identical apart from the observation type they filter on
and the vendor entry points they call (which the oracles abstract), so a
single state type and a single set of transition functions model both. -/
structure TrackerState where
  engine_ : Option VuEnginePtr
  observers_ : Option (List VuObserverPtr)
  databasePath_ : String
deriving DecidableEq

namespace TargetTracker

/-- The constructor `ImageTargetTracker(VuEngine* engine)` /
`ModelTargetTracker(VuEngine* engine)`: stores the engine and creates an
empty observer list (null when `vuObserverListCreate` fails). -/
def construct (listCreateOk : Bool) (engine : Option VuEnginePtr) : TrackerState :=
  { engine_ := engine
    observers_ := if listCreateOk then some [] else none
    databasePath_ := "" }

/-- Outcomes of the vendor calls in `loadDatabase`:
`vuDatabaseTargetInfoListCreate` and `vuEngineGetDatabaseTargetInfo`. -/
structure LoadDbOracle where
  infoListCreateOk : Bool
  getDatabaseTargetInfoOk : Bool
deriving DecidableEq

/-- `ImageTargetTracker::loadDatabase` (image_target_tracker.cpp:23-54) and
`ModelTargetTracker::loadDatabase` (model_target_tracker.cpp:23-54).
`databasePath = none` models a null `const char*`; the combined
`if (!engine_ || !databasePath)` guard is split over the `match`. -/
def loadDatabase (o : LoadDbOracle) (databasePath : Option String)
    (s : TrackerState) : Bool × TrackerState :=
  match databasePath with
  | none => (false, s)
  | some p =>
    if s.engine_.isNone then (false, s)
    else if !o.infoListCreateOk then (false, s)
    else if !o.getDatabaseTargetInfoOk then (false, s)
    else (true, { s with databasePath_ := p })

/-- Outcome of `vuEngineCreateImageTargetObserver` /
`vuEngineCreateModelTargetObserver` and the observer pointer it writes on
success. -/
structure CreateObserverOracle where
  createOk : Bool
  newObserver : VuObserverPtr
deriving DecidableEq

/-- `ImageTargetTracker::createTargetObserver`
(image_target_tracker.cpp:56-85) and
`ModelTargetTracker::createTargetObserver`
(model_target_tracker.cpp:56-87). Returns the C++ return value, the
resulting tracker state, and the vendor observer created (`none` when no
`vuEngineCreate*TargetObserver` call succeeded). The model variant's
`guideViewName` argument only populates the local vendor config. Note
that on success the new observer is returned to the caller but never
appended to `observers_`. -/
def createTargetObserver (o : CreateObserverOracle) (targetName : Option String)
    (s : TrackerState) : Bool × TrackerState × Option VuObserverPtr :=
  match targetName with
  | none => (false, s, none)
  | some _ =>
    if s.engine_.isNone then (false, s, none)
    else if s.databasePath_ = "" then (false, s, none)
    else if !o.createOk then (false, s, none)
    else (true, s, some o.newObserver)

/-- The search loop of `destroyTargetObserver`
(image_target_tracker.cpp:95-107): walks the observer list, asks the
vendor for each observer's target name (`nameOf`, `none` modelling a null
name), and destroys (returns) the first observer whose name matches. -/
def destroySearchLoop (nameOf : VuObserverPtr → Option String) (tn : String) :
    List VuObserverPtr → List VuObserverPtr
  | [] => []
  | ob :: rest =>
    match nameOf ob with
    | some n => if n = tn then [ob] else destroySearchLoop nameOf tn rest
    | none => destroySearchLoop nameOf tn rest

/-- `ImageTargetTracker::destroyTargetObserver`
(image_target_tracker.cpp:87-108) and
`ModelTargetTracker::destroyTargetObserver`
(model_target_tracker.cpp:88-109). Returns the (unchanged) tracker state
and the list of observers passed to `vuObserverDestroy`; the C++ never
removes entries from `observers_`. -/
def destroyTargetObserver (nameOf : VuObserverPtr → Option String)
    (targetName : Option String) (s : TrackerState) :
    TrackerState × List VuObserverPtr :=
  match s.observers_, targetName with
  | none, _ => (s, [])
  | some _, none => (s, [])
  | some obs, some tn => (s, destroySearchLoop nameOf tn obs)

/-- `destroyAllObservers` (image_target_tracker.cpp:110-127): destroys
every (non-null, here always non-null) element of `observers_` without
removing it from the list. -/
def destroyAllObservers (s : TrackerState) : TrackerState × List VuObserverPtr :=
  match s.observers_ with
  | none => (s, [])
  | some obs => (s, obs)

/-- Outcomes of the vendor calls in `getTrackedTargets`:
`vuEngineAcquireLatestState`, `vuObservationListCreate`,
`vuStateGetObservations`, and the observation list's contents. -/
structure StateOracle where
  acquireOk : Bool
  obsListCreateOk : Bool
  getObservationsOk : Bool
  observations : List VuObservation
deriving DecidableEq

/-- The three `continue` guards of the `getTrackedTargets` loop
(image_target_tracker.cpp:161-176): the observation's type matches the
tracker, `vuObservationGetPoseInfo` succeeds, and the pose status is
`TRACKED` or `EXTENDED_TRACKED`. -/
def qualifies (expected : VuObservationType) (ob : VuObservation) : Bool :=
  if ob.obsType ≠ expected then false
  else
    match ob.poseInfo with
    | none => false
    | some p =>
      if p.poseStatus ≠ VuPoseStatus.tracked ∧
         p.poseStatus ≠ VuPoseStatus.extendedTracked then false
      else true

/-- `strncpy(results[i].name, targetInfo.name, 255)` followed by
`name[255] = 0`: at most 255 characters of the source name survive. -/
def strncpyName (nm : String) : String := String.mk (nm.data.take 255)

/-- The result entry written for a qualifying observation
(image_target_tracker.cpp:178-196): the name buffer is written only when
the target-info call succeeds with a non-null name; the 16 pose floats
are copied element-for-element; the status is the vendor status info, or
0 when that call fails. -/
def mkEntry (ob : VuObservation) : TargetResult :=
  { name :=
      match ob.targetInfo with
      | some (some nm) => some (strncpyName nm)
      | _ => none
    poseMatrix :=
      match ob.poseInfo with
      | some p => p.pose
      | none => fun _ => 0
    status := ob.statusInfo.getD 0 }

/-- The result-collection loop of `getTrackedTargets`
(image_target_tracker.cpp:157-197): iterates the observation list while
`resultCount < maxResults`, skipping non-qualifying observations and
writing one entry per qualifying one. -/
def trackLoop (expected : VuObservationType) (maxResults : Int) :
    List VuObservation → Nat → List TargetResult
  | [], _ => []
  | ob :: rest, resultCount =>
    if (resultCount : Int) < maxResults then
      if qualifies expected ob then
        mkEntry ob :: trackLoop expected maxResults rest (resultCount + 1)
      else
        trackLoop expected maxResults rest resultCount
    else []

/-- `ImageTargetTracker::getTrackedTargets`
(image_target_tracker.cpp:129-202) and
`ModelTargetTracker::getTrackedTargets`
(model_target_tracker.cpp:130-203). `resultsNonNull` models the
null-check on the caller's result array; the returned pair is the C++
`int` return value and the entries written into that array. -/
def getTrackedTargets (expected : VuObservationType) (o : StateOracle)
    (resultsNonNull : Bool) (maxResults : Int) (s : TrackerState) :
    Int × List TargetResult :=
  if s.engine_.isNone ∨ resultsNonNull = false ∨ maxResults ≤ 0 then (0, [])
  else if !o.acquireOk then (0, [])
  else if !o.obsListCreateOk then (0, [])
  else if !o.getObservationsOk then (0, [])
  else
    let entries := trackLoop expected maxResults o.observations 0
    ((entries.length : Int), entries)

end TargetTracker

namespace ImageTargetTracker

/-- `ImageTargetTracker::loadDatabase`. -/
def loadDatabase (o : TargetTracker.LoadDbOracle) (databasePath : Option String)
    (s : TrackerState) : Bool × TrackerState :=
  TargetTracker.loadDatabase o databasePath s

/-- `ImageTargetTracker::createTargetObserver(const char* targetName)`. -/
def createTargetObserver (o : TargetTracker.CreateObserverOracle)
    (targetName : Option String) (s : TrackerState) :
    Bool × TrackerState × Option VuObserverPtr :=
  TargetTracker.createTargetObserver o targetName s

/-- `ImageTargetTracker::destroyTargetObserver`. -/
def destroyTargetObserver (nameOf : VuObserverPtr → Option String)
    (targetName : Option String) (s : TrackerState) :
    TrackerState × List VuObserverPtr :=
  TargetTracker.destroyTargetObserver nameOf targetName s

/-- `ImageTargetTracker::getTrackedTargets`: filters on
`VU_OBSERVATION_IMAGE_TARGET_TYPE`. -/
def getTrackedTargets (o : TargetTracker.StateOracle) (resultsNonNull : Bool)
    (maxResults : Int) (s : TrackerState) : Int × List TargetResult :=
  TargetTracker.getTrackedTargets .imageTarget o resultsNonNull maxResults s

end ImageTargetTracker

namespace ModelTargetTracker

/-- `ModelTargetTracker::loadDatabase`. -/
def loadDatabase (o : TargetTracker.LoadDbOracle) (databasePath : Option String)
    (s : TrackerState) : Bool × TrackerState :=
  TargetTracker.loadDatabase o databasePath s

/-- `ModelTargetTracker::createTargetObserver(const char* targetName,
const char* guideViewName)`: `guideViewName` only fills the local vendor
config's `activeGuideViewName` field. -/
def createTargetObserver (o : TargetTracker.CreateObserverOracle)
    (targetName _guideViewName : Option String) (s : TrackerState) :
    Bool × TrackerState × Option VuObserverPtr :=
  TargetTracker.createTargetObserver o targetName s

/-- `ModelTargetTracker::destroyTargetObserver`. -/
def destroyTargetObserver (nameOf : VuObserverPtr → Option String)
    (targetName : Option String) (s : TrackerState) :
    TrackerState × List VuObserverPtr :=
  TargetTracker.destroyTargetObserver nameOf targetName s

/-- `ModelTargetTracker::getTrackedTargets`: filters on
`VU_OBSERVATION_MODEL_TARGET_TYPE`. -/
def getTrackedTargets (o : TargetTracker.StateOracle) (resultsNonNull : Bool)
    (maxResults : Int) (s : TrackerState) : Int × List TargetResult :=
  TargetTracker.getTrackedTargets .modelTarget o resultsNonNull maxResults s

end ModelTargetTracker

/-- One call on a tracker object during its lifetime, with the vendor
outcomes that call sees (covers both tracker classes; the model tracker's
extra `guideViewName` argument does not reach the tracker state). -/
inductive TrackerOp where
  | loadDatabase (o : TargetTracker.LoadDbOracle) (databasePath : Option String)
  | createTargetObserver (o : TargetTracker.CreateObserverOracle) (targetName : Option String)
  | destroyTargetObserver (nameOf : VuObserverPtr → Option String) (targetName : Option String)
  | destroyAllObservers
  | getTrackedTargets (o : TargetTracker.StateOracle) (resultsNonNull : Bool) (maxResults : Int)

namespace TargetTracker

/-- The state transition of one tracker call (`getTrackedTargets` only
reads the state). -/
def step (s : TrackerState) : TrackerOp → TrackerState
  | .loadDatabase o p => (loadDatabase o p s).2
  | .createTargetObserver o tn => (createTargetObserver o tn s).2.1
  | .destroyTargetObserver nameOf tn => (destroyTargetObserver nameOf tn s).1
  | .destroyAllObservers => (destroyAllObservers s).1
  | .getTrackedTargets _ _ _ => s

/-- A whole lifetime of tracker calls, from a given starting state. -/
def runOps (s : TrackerState) (ops : List TrackerOp) : TrackerState :=
  ops.foldl step s

end TargetTracker

/-- The process-wide native state touched by `quforia_jni.cpp`: the
`VuforiaEngineWrapper` singleton plus the file-static tracker pointers
`g_imageTargetTracker` and `g_modelTargetTracker` (quforia_jni.cpp:11-12). -/
structure NativeState where
  wrapper : WrapperState
  g_imageTargetTracker : Option TrackerState
  g_modelTargetTracker : Option TrackerState
deriving DecidableEq

/-- Process start: wrapper at its constructed state, both tracker
pointers null. -/
def NativeState.initial : NativeState :=
  { wrapper := WrapperState.initial
    g_imageTargetTracker := none
    g_modelTargetTracker := none }

/-- Outcomes of the JVM and vendor calls made by
`Java_com_quforia_QuestVuforiaManager_nativeInitialize`:
`GetStringUTFChars` on the license key, the engine's three vendor calls,
and `vuObserverListCreate` inside each tracker constructor. -/
structure JniInitOracle where
  keyOk : Bool
  engineOracle : VuInitOracle
  imageListCreateOk : Bool
  modelListCreateOk : Bool
deriving DecidableEq

/-- `Java_com_quforia_QuestVuforiaManager_nativeInitialize`
(quforia_jni.cpp:16-44): obtains the license key, calls
`wrapper.initialize`, and on success creates both trackers on
`wrapper.getEngine()`. -/
def nativeInitialize (o : JniInitOracle) (st : NativeState) : Bool × NativeState :=
  if !o.keyOk then (false, st)
  else
    let r := VuforiaEngineWrapper.initialize_ o.engineOracle st.wrapper
    if r.1 then
      let engine := VuforiaEngineWrapper.getEngine r.2
      (true,
        { wrapper := r.2
          g_imageTargetTracker := some (TargetTracker.construct o.imageListCreateOk engine)
          g_modelTargetTracker := some (TargetTracker.construct o.modelListCreateOk engine) })
    else (false, { st with wrapper := r.2 })

/-- `Java_com_quforia_QuestVuforiaManager_nativeShutdown`
(quforia_jni.cpp:46-60): deletes both trackers and shuts the wrapper
down. -/
def nativeShutdown (st : NativeState) : NativeState :=
  { wrapper := VuforiaEngineWrapper.shutdown st.wrapper
    g_imageTargetTracker := none
    g_modelTargetTracker := none }

/-- Outcomes of `GetByteArrayElements` / `GetFloatArrayElements` in
`nativeProcessFrame` (a null return models the JVM failing to provide the
elements). -/
structure JniArrayOracle where
  getByteArrayElementsOk : Bool
  getFloatArrayElementsOk : Bool
deriving DecidableEq

/-- `Java_com_quforia_QuestVuforiaManager_nativeProcessFrame`
(quforia_jni.cpp:62-102). `imageData` and `intrinsicsArray` model the
`jbyteArray` / `jfloatArray` arguments (`none` = null reference), with the
array contents as functions from index to element; the initial
`if (!imageData || !intrinsicsArray)` guard and the `match` coincide.
Returns the `jboolean` result, the new native state, and the frame
delivered to the driver callback (`none` when no frame was forwarded). -/
def nativeProcessFrame (o : JniArrayOracle) (imageData : Option (Nat → Nat))
    (width height : Int) (intrinsicsArray : Option (Nat → F32))
    (timestamp : Int) (st : NativeState) :
    Bool × NativeState × Option CameraFrame :=
  match imageData, intrinsicsArray with
  | some img, some arr =>
    if !o.getByteArrayElementsOk ∨ !o.getFloatArrayElementsOk then (false, st, none)
    else
      let vuIntrinsics : VuCameraIntrinsics :=
        { size := ![arr 0, arr 1]
          focalLength := ![arr 2, arr 3]
          principalPoint := ![arr 4, arr 5]
          distortionMode := VU_CAMERA_DISTORTION_MODE_LINEAR
          -- for (int i = 0; i < 8; i++) data[i] = (i < 6) ? intrinsics[6 + i] : 0.0f;
          distortionParameters := fun i => if (i : Nat) < 6 then arr (6 + i) else 0 }
      let r := VuforiaEngineWrapper.processFrame img width height 0 vuIntrinsics
        timestamp st.wrapper
      (r.1, { st with wrapper := r.2.1 }, r.2.2)
  | _, _ => (false, st, none)

/-- A managed `com.quforia.TrackingResult(String name, float[] poseMatrix,
int status)` object as built by the result-marshalling JNI entry points.
`name = none` models `NewStringUTF` being fed the unwritten name buffer. -/
structure TrackingResult where
  name : Option String
  poseMatrix : Fin 16 → F32
  status : Int

/-- The managed object built from one native result entry
(quforia_jni.cpp:163-174): the name string, a fresh 16-element float
array filled by `SetFloatArrayRegion(matrix, 0, 16, poseMatrix)`, and the
status. -/
def marshalResult (e : TargetResult) : TrackingResult :=
  { name := e.name
    poseMatrix := fun j => e.poseMatrix j
    status := e.status }

/-- `Java_com_quforia_QuestVuforiaManager_nativeGetImageTargetResults`
(quforia_jni.cpp:147-177): with a null tracker returns an empty array;
otherwise calls `getTrackedTargets(results, 10)` and builds one
`TrackingResult` per returned entry (the loop bound `count` equals the
number of entries written). -/
def nativeGetImageTargetResults (o : TargetTracker.StateOracle)
    (st : NativeState) : List TrackingResult :=
  match st.g_imageTargetTracker with
  | none => []
  | some tr =>
    let r := ImageTargetTracker.getTrackedTargets o true 10 tr
    r.2.map marshalResult

/-- `Java_com_quforia_QuestVuforiaManager_nativeGetModelTargetResults`
(quforia_jni.cpp:226-256). -/
def nativeGetModelTargetResults (o : TargetTracker.StateOracle)
    (st : NativeState) : List TrackingResult :=
  match st.g_modelTargetTracker with
  | none => []
  | some tr =>
    let r := ModelTargetTracker.getTrackedTargets o true 10 tr
    r.2.map marshalResult

/-- Whether the "Driver Framework + external camera" integration mode is
active: the wrapper holds a live `ExternalCamera` registered through the
engine's `VuDriverConfig`. -/
def driverSubsystemActive (st : NativeState) : Bool :=
  st.wrapper.externalCamera_.isSome

/-- Whether the "Engine + target trackers" integration mode is active: at
least one of the target-tracker objects exists. -/
def trackerSubsystemActive (st : NativeState) : Bool :=
  st.g_imageTargetTracker.isSome || st.g_modelTargetTracker.isSome

/-- Helper: a successful `VuforiaEngineWrapper::initialize` leaves the
engine created, the external camera allocated and the initialized flag
set. -/
theorem initialize_success_state (o : VuInitOracle) (s : WrapperState)
    (h : (VuforiaEngineWrapper.initialize_ o s).1 = true) :
    (VuforiaEngineWrapper.initialize_ o s).2.externalCamera_ = some ExternalCameraImpl.fresh ∧
    (VuforiaEngineWrapper.initialize_ o s).2.engine_ = some o.newEngine ∧
    (VuforiaEngineWrapper.initialize_ o s).2.initialized_ = true := by
  simp only [VuforiaEngineWrapper.initialize_] at h ⊢
  split_ifs at h ⊢ <;> simp_all

/-- C1: the claim states that every accessor of the shared engine state
(`acquireLatestState`, `getEngine`, `isInitialized`) acquires `mutex_`
before reading it. Counterexample: none of the three accessor bodies
contains a `std::lock_guard`, so at the concrete initialized state their
shared-state traces read without a preceding lock acquisition. -/
theorem C1_counterexample :
    ¬ (locksBeforeRead VuforiaEngineWrapper.getEngineEvents = true ∧
       locksBeforeRead VuforiaEngineWrapper.isInitializedEvents = true ∧
       locksBeforeRead (VuforiaEngineWrapper.acquireLatestStateEvents
         { engine_ := some 1, externalCamera_ := none, initialized_ := true }) = true) := by
  decide

/-- C1 (amended): the mutating methods `initialize`, `shutdown` and
`processFrame` acquire `mutex_` before touching the shared state, but the
accessor methods `getEngine`, `isInitialized` and `acquireLatestState`
read the shared state without ever acquiring the mutex. -/
theorem C1_amended_mutex_discipline (s : WrapperState) :
    locksBeforeRead VuforiaEngineWrapper.initializeEvents = true ∧
    locksBeforeRead (VuforiaEngineWrapper.shutdownEvents s) = true ∧
    locksBeforeRead (VuforiaEngineWrapper.processFrameEvents s) = true ∧
    WrapperEvent.lockMutex ∉ VuforiaEngineWrapper.getEngineEvents ∧
    WrapperEvent.lockMutex ∉ VuforiaEngineWrapper.isInitializedEvents ∧
    WrapperEvent.lockMutex ∉ VuforiaEngineWrapper.acquireLatestStateEvents s := by
  rcases s with ⟨e, c, i⟩
  cases i <;>
    simp [VuforiaEngineWrapper.initializeEvents, VuforiaEngineWrapper.shutdownEvents,
      VuforiaEngineWrapper.processFrameEvents, VuforiaEngineWrapper.getEngineEvents,
      VuforiaEngineWrapper.isInitializedEvents, VuforiaEngineWrapper.acquireLatestStateEvents,
      locksBeforeRead]

/-- C2: the claim states that the "Engine + target trackers" subsystem and
the "Driver Framework + external camera" subsystem are never both active.
Counterexample: one successful `nativeInitialize` from the process's
initial state leaves the external-camera driver registered on the engine
and both target trackers created, so both subsystems are active at a
reachable state. -/
theorem C2_counterexample :
    driverSubsystemActive
      (nativeInitialize ⟨true, ⟨true, true, 1, true⟩, true, true⟩ NativeState.initial).2 = true ∧
    trackerSubsystemActive
      (nativeInitialize ⟨true, ⟨true, true, 1, true⟩, true, true⟩ NativeState.initial).2 = true := by
  decide

/-- C2 (amended): the two integration modes coexist rather than excluding
each other: whenever `nativeInitialize` succeeds, the engine is configured
with the external-camera driver and both target trackers are created on
the same engine, so both subsystems are active simultaneously. -/
theorem C2_amended_modes_coexist (o : JniInitOracle) (st : NativeState)
    (h : (nativeInitialize o st).1 = true) :
    driverSubsystemActive (nativeInitialize o st).2 = true ∧
    trackerSubsystemActive (nativeInitialize o st).2 = true := by
  simp only [nativeInitialize] at h ⊢
  split_ifs at h ⊢ with h1 h2
  · have hcam := (initialize_success_state o.engineOracle st.wrapper h2).1
    simp_all [driverSubsystemActive, trackerSubsystemActive]

/-- C2 witness: the amended theorem applied to a concrete all-successful
run from the initial state. -/
theorem C2_amended_witness :
    driverSubsystemActive
      (nativeInitialize ⟨true, ⟨true, true, 2, true⟩, true, true⟩ NativeState.initial).2 = true ∧
    trackerSubsystemActive
      (nativeInitialize ⟨true, ⟨true, true, 2, true⟩, true, true⟩ NativeState.initial).2 = true :=
  C2_amended_modes_coexist ⟨true, ⟨true, true, 2, true⟩, true, true⟩ NativeState.initial (by decide)

/-- C6: calling `VuforiaEngineWrapper::initialize` while already
initialized returns false and leaves the state unchanged; and on any
lifecycle-reachable state (captured by `WrapperInv`), whenever
`initialize` returns false the wrapper's state is unchanged from before
the call. -/
theorem C6_initialize_failure_preserves_state (o : VuInitOracle) (s : WrapperState) :
    (s.initialized_ = true → VuforiaEngineWrapper.initialize_ o s = (false, s)) ∧
    (WrapperInv s → (VuforiaEngineWrapper.initialize_ o s).1 = false →
      (VuforiaEngineWrapper.initialize_ o s).2 = s) := by
  constructor
  · intro hi
    simp [VuforiaEngineWrapper.initialize_, hi]
  · intro hinv hf
    rcases s with ⟨e, c, i⟩
    cases i
    · obtain ⟨he, hc⟩ := hinv rfl
      simp only at he hc
      subst he
      subst hc
      simp only [VuforiaEngineWrapper.initialize_] at hf ⊢
      split_ifs at hf ⊢ <;> simp_all
    · simp [VuforiaEngineWrapper.initialize_]

/-- C6 witness: a failed `vuEngineConfigSetCreate` on the initial state
leaves the state unchanged. -/
theorem C6_witness :
    (VuforiaEngineWrapper.initialize_ ⟨false, true, 1, true⟩ WrapperState.initial).2 =
      WrapperState.initial :=
  (C6_initialize_failure_preserves_state ⟨false, true, 1, true⟩ WrapperState.initial).2
    (by decide) (by decide)

/-- C7: on any lifecycle-reachable state, after one `shutdown` the wrapper
is uninitialized with both pointers null; and `shutdown` is idempotent on
every state (a second call changes nothing). -/
theorem C7_shutdown_idempotent (s : WrapperState) :
    (WrapperInv s →
      (VuforiaEngineWrapper.shutdown s).initialized_ = false ∧
      (VuforiaEngineWrapper.shutdown s).engine_ = none ∧
      (VuforiaEngineWrapper.shutdown s).externalCamera_ = none) ∧
    VuforiaEngineWrapper.shutdown (VuforiaEngineWrapper.shutdown s) =
      VuforiaEngineWrapper.shutdown s := by
  rcases s with ⟨e, c, i⟩
  cases i
  · constructor
    · intro hinv
      obtain ⟨he, hc⟩ := hinv rfl
      simp only at he hc
      subst he
      subst hc
      simp [VuforiaEngineWrapper.shutdown]
    · simp [VuforiaEngineWrapper.shutdown]
  · constructor
    · intro _
      cases e <;> cases c <;> simp [VuforiaEngineWrapper.shutdown]
    · cases e <;> cases c <;> simp [VuforiaEngineWrapper.shutdown]

/-- C7 witness: the theorem applied to a concrete initialized state. -/
theorem C7_witness :
    (VuforiaEngineWrapper.shutdown ⟨some 3, some ExternalCameraImpl.fresh, true⟩).engine_ = none ∧
    VuforiaEngineWrapper.shutdown
        (VuforiaEngineWrapper.shutdown ⟨some 3, some ExternalCameraImpl.fresh, true⟩) =
      VuforiaEngineWrapper.shutdown ⟨some 3, some ExternalCameraImpl.fresh, true⟩ :=
  ⟨((C7_shutdown_idempotent ⟨some 3, some ExternalCameraImpl.fresh, true⟩).1 (by decide)).2.1,
   (C7_shutdown_idempotent ⟨some 3, some ExternalCameraImpl.fresh, true⟩).2⟩

/-- C5: `nativeProcessFrame` returns `JNI_FALSE` without forwarding any
frame to the engine whenever the image byte array or the intrinsics float
array is null, or either array's elements cannot be obtained from the
JVM; the native state is left unchanged as well. -/
theorem C5_nativeProcessFrame_rejects_bad_arrays (o : JniArrayOracle)
    (imageData : Option (Nat → Nat)) (width height : Int)
    (intrinsicsArray : Option (Nat → F32)) (timestamp : Int) (st : NativeState)
    (h : imageData = none ∨ intrinsicsArray = none ∨
         o.getByteArrayElementsOk = false ∨ o.getFloatArrayElementsOk = false) :
    nativeProcessFrame o imageData width height intrinsicsArray timestamp st =
      (false, st, none) := by
  rcases imageData with _ | img
  · rfl
  rcases intrinsicsArray with _ | arr
  · rfl
  rcases h with h | h | h | h
  · exact absurd h (by simp)
  · exact absurd h (by simp)
  · simp [nativeProcessFrame, h]
  · simp [nativeProcessFrame, h]

/-- C5 witness: the theorem applied to a null image array. -/
theorem C5_witness :
    nativeProcessFrame ⟨true, true⟩ none 640 480 none 0 NativeState.initial =
      (false, NativeState.initial, none) :=
  C5_nativeProcessFrame_rejects_bad_arrays ⟨true, true⟩ none 640 480 none 0
    NativeState.initial (Or.inl rfl)

/-- C3: for a 12-element intrinsics array reaching `nativeProcessFrame`
with both arrays non-null and the wrapper initialized, the
`CameraIntrinsics` struct delivered to the driver camera callback has
`size` = elements 0-1, `focalLength` = elements 2-3, `principalPoint` =
elements 4-5, `distortionCoefficients[0..5]` = elements 6-11 and
`distortionCoefficients[6..7]` = 0. -/
theorem C3_intrinsics_marshalling (o : JniArrayOracle) (img : Nat → Nat)
    (arr : Nat → F32) (width height timestamp : Int) (st : NativeState)
    (frame : CameraFrame)
    (hinit : st.wrapper.initialized_ = true)
    (hdeliv : (nativeProcessFrame o (some img) width height (some arr) timestamp st).2.2 =
      some frame) :
    frame.intrinsics.size 0 = arr 0 ∧ frame.intrinsics.size 1 = arr 1 ∧
    frame.intrinsics.focalLength 0 = arr 2 ∧ frame.intrinsics.focalLength 1 = arr 3 ∧
    frame.intrinsics.principalPoint 0 = arr 4 ∧ frame.intrinsics.principalPoint 1 = arr 5 ∧
    (∀ i : Fin 8, (i : Nat) < 6 → frame.intrinsics.distortionCoefficients i = arr (6 + i)) ∧
    (∀ i : Fin 8, 6 ≤ (i : Nat) → frame.intrinsics.distortionCoefficients i = 0) := by
  simp only [nativeProcessFrame] at hdeliv
  rcases o with ⟨b, f⟩
  cases b
  · simp at hdeliv
  cases f
  · simp at hdeliv
  simp only [VuforiaEngineWrapper.processFrame, hinit, Bool.not_true, Bool.false_eq_true,
    if_false] at hdeliv
  rcases hcam : st.wrapper.externalCamera_ with _ | cam
  · simp [hcam] at hdeliv
  simp only [hcam] at hdeliv
  rcases hcb : cam.callback_ with _ | cb
  · simp [ExternalCameraImpl.deliverFrame, hcb] at hdeliv
  simp only [ExternalCameraImpl.deliverFrame, hcb, or_self, if_false, Option.some.injEq] at hdeliv
  subst hdeliv
  refine ⟨?_, ?_, ?_, ?_, ?_, ?_, ?_, ?_⟩ <;>
    simp [Matrix.cons_val_zero, Matrix.cons_val_one, Matrix.head_cons]
  · intro i hi
    simp [hi]
  · intro i hi
    have : ¬ ((i : Nat) < 6) := by omega
    simp [this]

instance : Inhabited CameraFrame :=
  ⟨{ timestamp := 0, exposureTime := 0, buffer := fun _ => 0, bufferSize := 0,
     index := 0, width := 0, height := 0, stride := 0, format := .unknown,
     intrinsics := { size := fun _ => 0, focalLength := fun _ => 0,
                     principalPoint := fun _ => 0, distortionCoefficients := fun _ => 0 } }⟩

/-- A fully started wrapper: engine live, external camera allocated and
its driver callback registered (as after `ExternalCamera::start`). -/
def sampleWrapperReady : WrapperState :=
  { engine_ := some 1
    externalCamera_ := some { callback_ := some 0, frameIndex_ := 0 }
    initialized_ := true }

/-- Native state with the wrapper started and no trackers. -/
def sampleNativeReady : NativeState :=
  { wrapper := sampleWrapperReady
    g_imageTargetTracker := none
    g_modelTargetTracker := none }

/-- A concrete 12-element intrinsics array (element `n` holds `n`). -/
def sampleIntrinsicsArr : Nat → F32 := fun n => (n : Int)

/-- The frame delivered by a concrete successful `nativeProcessFrame`
run on `sampleNativeReady`. -/
def sampleFrame : CameraFrame :=
  (nativeProcessFrame ⟨true, true⟩ (some fun _ => 0) 640 480 (some sampleIntrinsicsArr) 7
    sampleNativeReady).2.2.get!

/-- C3 witness: the theorem applied to the concrete delivered frame. -/
theorem C3_witness :
    sampleFrame.intrinsics.size 0 = sampleIntrinsicsArr 0 ∧
    sampleFrame.intrinsics.focalLength 0 = sampleIntrinsicsArr 2 ∧
    sampleFrame.intrinsics.distortionCoefficients 7 = 0 :=
  ⟨(C3_intrinsics_marshalling ⟨true, true⟩ (fun _ => 0) sampleIntrinsicsArr 640 480 7
      sampleNativeReady sampleFrame rfl rfl).1,
   (C3_intrinsics_marshalling ⟨true, true⟩ (fun _ => 0) sampleIntrinsicsArr 640 480 7
      sampleNativeReady sampleFrame rfl rfl).2.2.1,
   (C3_intrinsics_marshalling ⟨true, true⟩ (fun _ => 0) sampleIntrinsicsArr 640 480 7
      sampleNativeReady sampleFrame rfl rfl).2.2.2.2.2.2.2 7 (by decide)⟩

/-- Helper: the loop guard `qualifies` holds exactly when the observation
has the expected type, a successfully obtained pose info, and a TRACKED
or EXTENDED_TRACKED pose status. -/
theorem TargetTracker.qualifies_iff (expected : VuObservationType) (ob : VuObservation) :
    TargetTracker.qualifies expected ob = true ↔
      ob.obsType = expected ∧
      ∃ p, ob.poseInfo = some p ∧
        (p.poseStatus = VuPoseStatus.tracked ∨ p.poseStatus = VuPoseStatus.extendedTracked) := by
  rcases ob with ⟨t, pi, ti, si⟩
  rcases pi with _ | p <;>
    simp only [TargetTracker.qualifies] <;>
      split_ifs <;> simp_all <;> tauto

/-- Helper: the result-collection loop returns the entries of the first
`maxResults - resultCount` qualifying observations, in order. -/
theorem TargetTracker.trackLoop_eq_take (expected : VuObservationType) (maxResults : Int) :
    ∀ (obs : List VuObservation) (c : Nat),
      TargetTracker.trackLoop expected maxResults obs c =
        ((obs.filter (TargetTracker.qualifies expected)).map TargetTracker.mkEntry).take
          (maxResults - c).toNat := by
  intro obs
  induction obs with
  | nil =>
    intro c
    simp [TargetTracker.trackLoop]
  | cons ob rest ih =>
    intro c
    by_cases hc : (c : Int) < maxResults
    · cases hq : TargetTracker.qualifies expected ob
      · simp [TargetTracker.trackLoop, hc, hq, ih c, List.filter_cons]
      · have h1 : (maxResults - (c : Int)).toNat = (maxResults - ((c + 1 : Nat) : Int)).toNat + 1 := by
          push_cast
          omega
        simp [TargetTracker.trackLoop, hc, hq, ih (c + 1), List.filter_cons, h1]
    · have h0 : (maxResults - (c : Int)).toNat = 0 := by omega
      simp [TargetTracker.trackLoop, hc, h0]

/-- Helper: `getTrackedTargets` always returns exactly the number of
entries it wrote. -/
theorem TargetTracker.getTrackedTargets_count_eq_length (expected : VuObservationType)
    (o : TargetTracker.StateOracle) (resultsNonNull : Bool) (maxResults : Int)
    (s : TrackerState) :
    (TargetTracker.getTrackedTargets expected o resultsNonNull maxResults s).1 =
      ((TargetTracker.getTrackedTargets expected o resultsNonNull maxResults s).2.length : Int) := by
  unfold TargetTracker.getTrackedTargets
  split_ifs <;> simp

/-- The contract claimed for `getTrackedTargets`, parameterised by the
observation type the tracker filters on: the count is between 0 and
`maxResults` (when positive), a null result array or non-positive
capacity yields 0 and no entries, and every written entry stems from an
observation of the expected type whose pose info was obtained with a
TRACKED or EXTENDED_TRACKED status. -/
def GTTClaim (expected : VuObservationType)
    (gtt : TargetTracker.StateOracle → Bool → Int → TrackerState → Int × List TargetResult) :
    Prop :=
  ∀ (o : TargetTracker.StateOracle) (resultsNonNull : Bool) (maxResults : Int)
      (s : TrackerState),
    0 ≤ (gtt o resultsNonNull maxResults s).1 ∧
    (0 < maxResults → (gtt o resultsNonNull maxResults s).1 ≤ maxResults) ∧
    (resultsNonNull = false ∨ maxResults ≤ 0 → gtt o resultsNonNull maxResults s = (0, [])) ∧
    (∀ e ∈ (gtt o resultsNonNull maxResults s).2,
      ∃ ob ∈ o.observations,
        ob.obsType = expected ∧
        ∃ p, ob.poseInfo = some p ∧
          (p.poseStatus = VuPoseStatus.tracked ∨ p.poseStatus = VuPoseStatus.extendedTracked) ∧
          e = TargetTracker.mkEntry ob)

/-- Helper: the shared tracker core satisfies the `getTrackedTargets`
contract for any expected observation type. -/
theorem TargetTracker.getTrackedTargets_spec (expected : VuObservationType) :
    GTTClaim expected (TargetTracker.getTrackedTargets expected) := by
  intro o resultsNonNull maxResults s
  refine ⟨?_, ?_, ?_, ?_⟩
  · rw [TargetTracker.getTrackedTargets_count_eq_length]
    exact Int.natCast_nonneg _
  · intro hmx
    unfold TargetTracker.getTrackedTargets
    split_ifs
    · simpa using le_of_lt hmx
    · simpa using le_of_lt hmx
    · simpa using le_of_lt hmx
    · simpa using le_of_lt hmx
    · have hlen := List.length_take_le (maxResults - ((0 : Nat) : Int)).toNat
        ((o.observations.filter (TargetTracker.qualifies expected)).map TargetTracker.mkEntry)
      simp only [TargetTracker.trackLoop_eq_take]
      omega
  · intro hbad
    unfold TargetTracker.getTrackedTargets
    rcases hbad with h | h <;> simp [h]
  · intro e he
    unfold TargetTracker.getTrackedTargets at he
    split_ifs at he <;> simp only at he
    · simp at he
    · simp at he
    · simp at he
    · simp at he
    · rw [TargetTracker.trackLoop_eq_take] at he
      have he2 := List.take_subset _ _ he
      obtain ⟨ob, hob, rfl⟩ := List.mem_map.1 he2
      obtain ⟨hmem, hq⟩ := List.mem_filter.1 hob
      obtain ⟨ht, p, hp, hst⟩ := (TargetTracker.qualifies_iff expected ob).1 hq
      exact ⟨ob, hmem, ht, p, hp, hst, rfl⟩

/-- C4: for every `getTrackedTargets(results, maxResults)` call on either
tracker, the count is between 0 and `maxResults`, entries come only from
observations of the tracker's own type with TRACKED or EXTENDED_TRACKED
pose status, and a null `results` or non-positive `maxResults` returns 0. -/
theorem C4_getTrackedTargets_contract :
    GTTClaim VuObservationType.imageTarget ImageTargetTracker.getTrackedTargets ∧
    GTTClaim VuObservationType.modelTarget ModelTargetTracker.getTrackedTargets :=
  ⟨TargetTracker.getTrackedTargets_spec VuObservationType.imageTarget,
   TargetTracker.getTrackedTargets_spec VuObservationType.modelTarget⟩

/-- A qualifying image-target observation with a short name. -/
def sampleObservation : VuObservation :=
  { obsType := .imageTarget
    poseInfo := some { poseStatus := .tracked, pose := fun _ => 2 }
    targetInfo := some (some "stones")
    statusInfo := some 1 }

/-- A vendor-state oracle delivering one qualifying observation. -/
def sampleStateOracle : TargetTracker.StateOracle :=
  { acquireOk := true
    obsListCreateOk := true
    getObservationsOk := true
    observations := [sampleObservation] }

/-- A tracker with an engine and a loaded database. -/
def sampleReadyTracker : TrackerState :=
  { engine_ := some 1, observers_ := some [], databasePath_ := "StonesAndChips.xml" }

/-- C4 witness: the contract applied to a concrete call with capacity 10
and to a concrete call with a null result array. -/
theorem C4_witness :
    (ImageTargetTracker.getTrackedTargets sampleStateOracle true 10 sampleReadyTracker).1 ≤ 10 ∧
    ModelTargetTracker.getTrackedTargets sampleStateOracle false 10 sampleReadyTracker = (0, []) :=
  ⟨(C4_getTrackedTargets_contract.1 sampleStateOracle true 10 sampleReadyTracker).2.1 (by decide),
   (C4_getTrackedTargets_contract.2 sampleStateOracle false 10 sampleReadyTracker).2.2.1
     (Or.inl rfl)⟩

/-- Helper: no tracker operation ever changes the observer list — in
particular, a successful `createTargetObserver` does not append the
observer it created. -/
theorem TargetTracker.step_preserves_observers (s : TrackerState) (op : TrackerOp) :
    (TargetTracker.step s op).observers_ = s.observers_ := by
  cases op with
  | loadDatabase o p =>
    rcases p with _ | p
    · rfl
    · simp only [TargetTracker.step, TargetTracker.loadDatabase]
      split_ifs <;> rfl
  | createTargetObserver o tn =>
    rcases tn with _ | tn
    · rfl
    · simp only [TargetTracker.step, TargetTracker.createTargetObserver]
      split_ifs <;> rfl
  | destroyTargetObserver nameOf tn =>
    rcases tn with _ | tn <;>
      rcases h : s.observers_ with _ | obs <;>
        simp [TargetTracker.step, TargetTracker.destroyTargetObserver, h]
  | destroyAllObservers =>
    rcases h : s.observers_ with _ | obs <;>
      simp [TargetTracker.step, TargetTracker.destroyAllObservers, h]
  | getTrackedTargets o rn mx => rfl

/-- Helper: running any sequence of tracker calls leaves the observer list
exactly as it was. -/
theorem TargetTracker.runOps_observers (ops : List TrackerOp) :
    ∀ s : TrackerState, (TargetTracker.runOps s ops).observers_ = s.observers_ := by
  induction ops with
  | nil =>
    intro s
    rfl
  | cons op rest ih =>
    intro s
    have hstep : TargetTracker.runOps s (op :: rest) =
        TargetTracker.runOps (TargetTracker.step s op) rest := rfl
    rw [hstep, ih, TargetTracker.step_preserves_observers]

/-- C9: for both trackers, the observer list stays empty for the whole
lifetime — no operation (including a successful `createTargetObserver`)
ever appends to it, and on any such state `destroyTargetObserver`'s
search loop finds nothing to destroy. -/
theorem C9_observers_stay_empty :
    (∀ (s : TrackerState) (op : TrackerOp),
        (TargetTracker.step s op).observers_ = s.observers_) ∧
    (∀ (listCreateOk : Bool) (engine : Option VuEnginePtr) (ops : List TrackerOp),
        (TargetTracker.runOps (TargetTracker.construct listCreateOk engine) ops).observers_ = none ∨
        (TargetTracker.runOps (TargetTracker.construct listCreateOk engine) ops).observers_ =
          some []) ∧
    (∀ (nameOf : VuObserverPtr → Option String) (targetName : Option String) (s : TrackerState),
        s.observers_ = none ∨ s.observers_ = some [] →
        (ImageTargetTracker.destroyTargetObserver nameOf targetName s).2 = [] ∧
        (ModelTargetTracker.destroyTargetObserver nameOf targetName s).2 = []) := by
  refine ⟨TargetTracker.step_preserves_observers, ?_, ?_⟩
  · intro listCreateOk engine ops
    rw [TargetTracker.runOps_observers]
    cases listCreateOk <;> simp [TargetTracker.construct]
  · intro nameOf tn s h
    constructor <;>
      rcases h with h | h <;>
        rcases tn with _ | tn <;>
          simp [ImageTargetTracker.destroyTargetObserver,
            ModelTargetTracker.destroyTargetObserver, TargetTracker.destroyTargetObserver,
            TargetTracker.destroySearchLoop, h]

/-- C9 witness: destroying a named target on a freshly constructed tracker
destroys no observer. -/
theorem C9_witness :
    (ImageTargetTracker.destroyTargetObserver (fun _ => none) (some "stones")
      (TargetTracker.construct true (some 1))).2 = [] :=
  (C9_observers_stay_empty.2.2 (fun _ => none) (some "stones")
    (TargetTracker.construct true (some 1)) (Or.inr rfl)).1

/-- Helper: with an empty stored database path, `createTargetObserver`
fails without reaching the vendor observer-creation call. -/
theorem TargetTracker.create_requires_db (o : TargetTracker.CreateObserverOracle)
    (targetName : Option String) (s : TrackerState) (h : s.databasePath_ = "") :
    TargetTracker.createTargetObserver o targetName s = (false, s, none) := by
  rcases targetName with _ | tn
  · rfl
  · simp [TargetTracker.createTargetObserver, h]

/-- Helper: a failing `loadDatabase` leaves the stored path unchanged. -/
theorem TargetTracker.loadDatabase_false_path (o : TargetTracker.LoadDbOracle)
    (databasePath : Option String) (s : TrackerState)
    (h : (TargetTracker.loadDatabase o databasePath s).1 = false) :
    (TargetTracker.loadDatabase o databasePath s).2.databasePath_ = s.databasePath_ := by
  rcases databasePath with _ | p
  · rfl
  · simp only [TargetTracker.loadDatabase] at h ⊢
    split_ifs at h ⊢ <;> simp_all

/-- Helper: a successful `loadDatabase` stores exactly its argument. -/
theorem TargetTracker.loadDatabase_true_path (o : TargetTracker.LoadDbOracle)
    (p : String) (s : TrackerState)
    (h : (TargetTracker.loadDatabase o (some p) s).1 = true) :
    (TargetTracker.loadDatabase o (some p) s).2.databasePath_ = p := by
  simp only [TargetTracker.loadDatabase] at h ⊢
  split_ifs at h ⊢ <;> simp_all

/-- C10: on both trackers, `createTargetObserver` returns false without
creating a vendor observer whenever the stored database path is empty
(no prior `loadDatabase` succeeded); a failing `loadDatabase` leaves the
stored path unchanged; and a successful `loadDatabase` stores exactly its
argument. -/
theorem C10_database_gating :
    (∀ (o : TargetTracker.CreateObserverOracle) (targetName : Option String) (s : TrackerState),
        s.databasePath_ = "" →
        ImageTargetTracker.createTargetObserver o targetName s = (false, s, none)) ∧
    (∀ (o : TargetTracker.CreateObserverOracle) (targetName guideViewName : Option String)
        (s : TrackerState),
        s.databasePath_ = "" →
        ModelTargetTracker.createTargetObserver o targetName guideViewName s = (false, s, none)) ∧
    (∀ (o : TargetTracker.LoadDbOracle) (databasePath : Option String) (s : TrackerState),
        (ImageTargetTracker.loadDatabase o databasePath s).1 = false →
        (ImageTargetTracker.loadDatabase o databasePath s).2.databasePath_ = s.databasePath_) ∧
    (∀ (o : TargetTracker.LoadDbOracle) (p : String) (s : TrackerState),
        (ImageTargetTracker.loadDatabase o (some p) s).1 = true →
        (ImageTargetTracker.loadDatabase o (some p) s).2.databasePath_ = p) ∧
    (∀ (o : TargetTracker.LoadDbOracle) (databasePath : Option String) (s : TrackerState),
        (ModelTargetTracker.loadDatabase o databasePath s).1 = false →
        (ModelTargetTracker.loadDatabase o databasePath s).2.databasePath_ = s.databasePath_) ∧
    (∀ (o : TargetTracker.LoadDbOracle) (p : String) (s : TrackerState),
        (ModelTargetTracker.loadDatabase o (some p) s).1 = true →
        (ModelTargetTracker.loadDatabase o (some p) s).2.databasePath_ = p) :=
  ⟨fun o tn s h => TargetTracker.create_requires_db o tn s h,
   fun o tn _ s h => TargetTracker.create_requires_db o tn s h,
   fun o p s h => TargetTracker.loadDatabase_false_path o p s h,
   fun o p s h => TargetTracker.loadDatabase_true_path o p s h,
   fun o p s h => TargetTracker.loadDatabase_false_path o p s h,
   fun o p s h => TargetTracker.loadDatabase_true_path o p s h⟩

/-- C10 witness: a create on a fresh tracker (empty path) fails with no
observer created, and a successful load on the same tracker stores the
path. -/
theorem C10_witness :
    ImageTargetTracker.createTargetObserver ⟨true, 7⟩ (some "stones")
        (TargetTracker.construct true (some 1)) =
      (false, TargetTracker.construct true (some 1), none) ∧
    (ImageTargetTracker.loadDatabase ⟨true, true⟩ (some "StonesAndChips.xml")
        (TargetTracker.construct true (some 1))).2.databasePath_ = "StonesAndChips.xml" :=
  ⟨C10_database_gating.1 ⟨true, 7⟩ (some "stones") (TargetTracker.construct true (some 1)) rfl,
   C10_database_gating.2.2.2.1 ⟨true, true⟩ "StonesAndChips.xml"
     (TargetTracker.construct true (some 1)) (by decide)⟩

/-- Helper: `strncpy` into the 256-byte name buffer preserves names of at
most 255 characters. -/
theorem TargetTracker.strncpyName_of_short (nm : String) (h : nm.length ≤ 255) :
    TargetTracker.strncpyName nm = nm := by
  rcases nm with ⟨l⟩
  exact congrArg String.mk (List.take_of_length_le h)

/-- C8: with the image target tracker initialized,
`nativeGetImageTargetResults` builds exactly `n` managed `TrackingResult`
objects where `n` is the count returned by `getTrackedTargets` with
capacity 10 (so `n ≤ 10`); provided the vendor target-info and
status-info calls succeed (with names fitting the 256-byte buffer), each
object carries the target's name, the 16 pose floats copied
element-for-element, and the vendor status code. -/
theorem C8_image_results_marshalling (o : TargetTracker.StateOracle)
    (st : NativeState) (tr : TrackerState)
    (htr : st.g_imageTargetTracker = some tr)
    (hwf : ∀ ob ∈ o.observations,
        (∃ nm, ob.targetInfo = some (some nm) ∧ nm.length ≤ 255) ∧ ob.statusInfo ≠ none) :
    ((nativeGetImageTargetResults o st).length : Int) =
        (ImageTargetTracker.getTrackedTargets o true 10 tr).1 ∧
    (ImageTargetTracker.getTrackedTargets o true 10 tr).1 ≤ 10 ∧
    (∀ r ∈ nativeGetImageTargetResults o st,
      ∃ ob ∈ o.observations,
        ob.obsType = VuObservationType.imageTarget ∧
        ∃ p nm code,
          ob.poseInfo = some p ∧ ob.targetInfo = some (some nm) ∧ ob.statusInfo = some code ∧
          r.name = some nm ∧ r.poseMatrix = p.pose ∧ r.status = code) := by
  have hres : nativeGetImageTargetResults o st =
      (ImageTargetTracker.getTrackedTargets o true 10 tr).2.map marshalResult := by
    simp [nativeGetImageTargetResults, htr]
  refine ⟨?_, ?_, ?_⟩
  · rw [hres, List.length_map]
    exact (TargetTracker.getTrackedTargets_count_eq_length VuObservationType.imageTarget
      o true 10 tr).symm
  · exact (TargetTracker.getTrackedTargets_spec VuObservationType.imageTarget
      o true 10 tr).2.1 (by norm_num)
  · intro r hr
    rw [hres] at hr
    obtain ⟨e, he, rfl⟩ := List.mem_map.1 hr
    obtain ⟨ob, hmem, ht, p, hp, hst, rfl⟩ :=
      (TargetTracker.getTrackedTargets_spec VuObservationType.imageTarget o true 10 tr).2.2.2 e he
    obtain ⟨⟨nm, hnm, hlen⟩, hsi⟩ := hwf ob hmem
    obtain ⟨code, hcode⟩ := Option.ne_none_iff_exists'.1 hsi
    refine ⟨ob, hmem, ht, p, nm, code, hp, hnm, hcode, ?_, ?_, ?_⟩
    · simp [marshalResult, TargetTracker.mkEntry, hnm,
        TargetTracker.strncpyName_of_short nm hlen]
    · funext j
      simp [marshalResult, TargetTracker.mkEntry, hp]
    · simp [marshalResult, TargetTracker.mkEntry, hcode]

/-- Native state with the wrapper started and the image tracker present. -/
def sampleNativeWithTracker : NativeState :=
  { wrapper := sampleWrapperReady
    g_imageTargetTracker := some sampleReadyTracker
    g_modelTargetTracker := none }

/-- C8 witness: the theorem applied to a concrete one-observation run. -/
theorem C8_witness :
    (ImageTargetTracker.getTrackedTargets sampleStateOracle true 10 sampleReadyTracker).1 ≤ 10 ∧
    ((nativeGetImageTargetResults sampleStateOracle sampleNativeWithTracker).length : Int) =
      (ImageTargetTracker.getTrackedTargets sampleStateOracle true 10 sampleReadyTracker).1 := by
  have hwf : ∀ ob ∈ sampleStateOracle.observations,
      (∃ nm, ob.targetInfo = some (some nm) ∧ nm.length ≤ 255) ∧ ob.statusInfo ≠ none := by
    intro ob hob
    have hob2 : ob = sampleObservation := by
      simpa [sampleStateOracle] using hob
    subst hob2
    exact ⟨⟨"stones", rfl, by decide⟩, by simp [sampleObservation]⟩
  have h := C8_image_results_marshalling sampleStateOracle sampleNativeWithTracker
    sampleReadyTracker rfl hwf
  exact ⟨h.2.1, h.1⟩

/-- Helper: `WrapperInv` really is an invariant of the wrapper's
lifecycle: it holds at construction and is preserved by `initialize`,
`shutdown` and `processFrame`, so every state at which those methods can
be called satisfies it. -/
theorem wrapperInv_is_invariant :
    WrapperInv WrapperState.initial ∧
    (∀ (o : VuInitOracle) (s : WrapperState), WrapperInv s →
      WrapperInv (VuforiaEngineWrapper.initialize_ o s).2) ∧
    (∀ s : WrapperState, WrapperInv s → WrapperInv (VuforiaEngineWrapper.shutdown s)) ∧
    (∀ (img : Nat → Nat) (width height format : Int) (intr : VuCameraIntrinsics)
        (ts : Int) (s : WrapperState), WrapperInv s →
      WrapperInv (VuforiaEngineWrapper.processFrame img width height format intr ts s).2.1) := by
  refine ⟨by decide, ?_, ?_, ?_⟩
  · intro o s hinv
    rcases s with ⟨e, c, i⟩
    cases i
    · obtain ⟨he, hc⟩ := hinv rfl
      simp only at he hc
      subst he
      subst hc
      simp only [VuforiaEngineWrapper.initialize_]
      split_ifs <;> intro h <;> simp_all [WrapperInv]
    · simp only [VuforiaEngineWrapper.initialize_]
      intro h
      simp_all
  · intro s hinv
    rcases s with ⟨e, c, i⟩
    cases i
    · exact hinv
    · cases e <;> cases c <;> simp [VuforiaEngineWrapper.shutdown, WrapperInv]
  · intro img width height format intr ts s hinv
    rcases s with ⟨e, c, i⟩
    cases i
    · exact hinv
    · rcases c with _ | cam
      · exact hinv
      · intro h
        simp [VuforiaEngineWrapper.processFrame] at h
